import Mathlib

set_option maxHeartbeats 1000000

deriving instance DecidableEq for Except

/-!
Shallow embedding of the turnkey-gitwrapper repository
(`src/gitwrapper/__init__.py`), a thin wrapper around the external `git`
command-line tool.

The external world (filesystem queries, `os.path.realpath`, and the result of
running a `git` subprocess) is modelled by an oracle structure `World`.
Process-global state mutated by the wrapper (the current working directory and
the `GIT_DIR` environment variable) is threaded explicitly as a `ProcState`.
Every wrapper method is embedded as a function
`ProcState → Except PyErr α × ProcState × List Invocation`, where the
`Invocation` list records each `git` subprocess spawned by the call, together
with the working directory, `GIT_DIR` value, and stdout/stderr capture
configuration it was spawned with.
-/

/-- Python `str.startswith(pre)`. -/
def pyStartsWith (s pre : String) : Bool := pre.data.isPrefixOf s.data

/-- Python `str.endswith(suf)`. -/
def pyEndsWith (s suf : String) : Bool := suf.data.isSuffixOf s.data

/-- Python `len(s)`. -/
def pyLen (s : String) : Nat := s.data.length

/-- Python slicing `s[n:]`. -/
def pyDropChars (s : String) (n : Nat) : String := ⟨s.data.drop n⟩

/-- Python `s.lstrip("/")`: remove all leading slash characters. -/
def pyLstripSlash (s : String) : String := ⟨s.data.dropWhile (fun c => c == '/')⟩

/-- Python `s.rstrip()`: remove all trailing whitespace. -/
def pyRstrip (s : String) : String :=
  ⟨(s.data.reverse.dropWhile Char.isWhitespace).reverse⟩

/-- Split a character list at its last slash: the first component is everything
up to and including the last `'/'` (empty when there is no slash), the second
is everything after it. -/
def splitAtLastSlash (cs : List Char) : List Char × List Char :=
  let rev := cs.reverse
  ((rev.dropWhile (fun c => c != '/')).reverse,
   (rev.takeWhile (fun c => c != '/')).reverse)

/-- Python `os.path.basename` (posixpath): the part after the last slash. -/
def pyBasename (p : String) : String := ⟨(splitAtLastSlash p.data).2⟩

/-- Python `os.path.dirname` (posixpath): the part before the last slash, with
trailing slashes stripped unless the head consists only of slashes. -/
def pyDirname (p : String) : String :=
  let head := (splitAtLastSlash p.data).1
  if !head.isEmpty && head.any (fun c => c != '/') then
    ⟨(head.reverse.dropWhile (fun c => c == '/')).reverse⟩
  else
    ⟨head⟩

/-- Python `os.path.join(a, b)` (posixpath, two arguments). -/
def pyJoin (a b : String) : String :=
  if pyStartsWith b "/" then b
  else if a == "" || pyEndsWith a "/" then a ++ b
  else a ++ "/" ++ b

/-- Python `s.split(sep)` for a non-empty separator string. -/
def pySplit (s sep : String) : List String := s.splitOn sep

/-- Python `s.split(sep, 1)`: split at the first occurrence only. -/
def pySplitOnce (s sep : String) : List String :=
  match s.splitOn sep with
  | [] => []
  | [x] => [x]
  | x :: rest => [x, String.intercalate sep rest]

/-- Python `s.rsplit(sep, 1)[0]`: everything before the last occurrence of
`sep` (the whole string when `sep` does not occur). -/
def pyRsplitHead (s sep : String) : String :=
  match s.splitOn sep with
  | [] => s
  | [_] => s
  | parts => String.intercalate sep parts.dropLast

/-- Result of one `subprocess.run` / `Popen`: exit code and the text captured
on the child's stdout and stderr channels. -/
structure RunResult where
  exitCode : Nat
  stdout : String
  stderr : String
  deriving Repr, DecidableEq

/-- Where a child process stream is directed: inherited from the parent
(stream not captured), piped into the wrapper, or redirected into the child's
stdout (`subprocess.STDOUT`). -/
inductive Std3
  | inherit
  | pipe
  | toStdout
  deriving Repr, DecidableEq

/-- Process-global state mutated by the wrapper: the current working directory
(`os.chdir`) and the `GIT_DIR` environment variable (`os.environ`). -/
structure ProcState where
  cwd : String
  gitDirEnv : Option String
  deriving Repr, DecidableEq

/-- Record of one `git` subprocess spawned by a wrapper call: its argument
vector and the working directory, `GIT_DIR` value and stream configuration in
effect when it was spawned. -/
structure Invocation where
  argv : List String
  cwd : String
  gitDirEnv : Option String
  stdoutCfg : Std3
  stderrCfg : Std3
  deriving Repr, DecidableEq

/-- Oracle for the external world: `os.path.realpath`, `os.path.isdir`, and
the outcome of running a subprocess with a given argument vector. -/
structure World where
  realpath : String → String
  isdir : String → Bool
  run : List String → RunResult

/-- Python exceptions that the wrapper's code can raise: `GitError` with its
first argument as message, plus the built-in exceptions its slips produce. -/
inductive PyErr
  | gitError (msg : String)
  | nameError
  | unboundLocalError
  | attributeError
  deriving Repr, DecidableEq

/-- The `Git` instance fields set by `Git.__init__` and never reassigned. -/
structure Git where
  path : String
  gitdir : String
  bare : Bool
  deriving Repr, DecidableEq

/-- A wrapper method: consumes the ambient process state, returns the Python
result (or exception), the process state after the call, and the list of `git`
subprocesses spawned. -/
abbrev M (α : Type) := ProcState → Except PyErr α × ProcState × List Invocation

/-- `is_git_repository` (module level, lines 29-36). The `or` short-circuits:
when `path/.git` is a directory it returns `True`; otherwise evaluating the
bare-repository fallback references the undefined name `self`, raising
`NameError`. -/
def is_git_repository (w : World) (path0 : String) : Except PyErr Bool :=
  let path := w.realpath path0
  let path_git := pyJoin path ".git"
  if w.isdir path_git then .ok true
  else .error .nameError

/-- `Git.__init__` (lines 155-171): sets `path` to the realpath, detects a
non-bare repository by a `.git` subdirectory, else a bare one by the `.git`
suffix plus existing `refs` and `objects` subdirectories, else raises
`GitError`. -/
def Git.init (w : World) (path0 : String) : Except PyErr Git :=
  let path := w.realpath path0
  let path_git := pyJoin path ".git"
  if w.isdir path_git then
    .ok { path := path, gitdir := path_git, bare := false }
  else if pyEndsWith path ".git" && w.isdir (pyJoin path "refs") &&
          w.isdir (pyJoin path "objects") then
    .ok { path := path, gitdir := path, bare := true }
  else
    .error (.gitError ("Not a git repository `" ++ path ++ "'"))

/-- The resolved form of a path used by `Git.make_relative` (line 175):
`join(realpath(dirname(path)), basename(path))`. -/
def resolvedPath (w : World) (p : String) : String :=
  pyJoin (w.realpath (pyDirname p)) (pyBasename p)

/-- `Git.make_relative` (lines 173-180): resolve the path, require it to be
the repository path or strictly under it, and return the suffix after the
repository path with leading slashes stripped; otherwise raise `GitError`. -/
def Git.make_relative (g : Git) (w : World) (p : String) : Except PyErr String :=
  let path := resolvedPath w p
  if path == g.path || pyStartsWith path (g.path ++ "/") then
    .ok (pyLstripSlash (pyDropChars path (pyLen g.path)))
  else
    .error (.gitError ("path not in the git repository (" ++ path ++ ")"))

/-- Argument preprocessing done by the `setup` decorator (lines 54-64) on one
string argument. When `self.make_relative(arg)` raises `GitError`, the handler
clause `except self.GitError` evaluates `self.GitError`, an attribute the
`Git` class does not have, so the fallback `return arg` is dead code and the
wrapper raises `AttributeError` instead. -/
def relArgE (g : Git) (w : World) (s : String) : Except PyErr String :=
  match Git.make_relative g w s with
  | .ok r => .ok r
  | .error _ => .error .attributeError

/-- Left-to-right effectful map of `relArgE`-style preprocessing over the
positional arguments, stopping at the first exception (Python `list(map ...)`
semantics). -/
def mapME (f : String → Except PyErr String) : List String → Except PyErr (List String)
  | [] => .ok []
  | a :: rest =>
    match f a with
    | .error e => .error e
    | .ok b =>
      match mapME f rest with
      | .error e => .error e
      | .ok bs => .ok (b :: bs)

/-- `Git._system` (lines 182-190), including its `@setup` decorator
(lines 49-75). The decorator chdirs into `g.path` and sets `GIT_DIR`, then
preprocesses the positional arguments (outside the `try`/`finally`, so a
preprocessing exception leaves the working directory changed); the body runs
`['git', command, *args]` with `stderr=PIPE` and stdout inherited, raising
`GitError` with the captured stderr on non-zero exit when `check_returncode`
is set, else returning the exit code; the `finally` restores the working
directory but `GIT_DIR` persists. -/
def Git._system (g : Git) (w : World) (command : String) (args : List String)
    (check_returncode : Bool) : M Nat := fun st =>
  let st1 : ProcState := { cwd := g.path, gitDirEnv := some g.gitdir }
  match mapME (relArgE g w) (command :: args) with
  | .error e => (.error e, st1, [])
  | .ok rargs =>
    let argv := "git" :: rargs
    let out := w.run argv
    let inv : Invocation :=
      { argv := argv, cwd := st1.cwd, gitDirEnv := st1.gitDirEnv,
        stdoutCfg := .inherit, stderrCfg := .pipe }
    let res : Except PyErr Nat :=
      if check_returncode && out.exitCode != 0 then
        .error (.gitError out.stderr)
      else
        .ok out.exitCode
    (res, { st1 with cwd := st.cwd }, [inv])

/-- `Git._getoutput` (lines 300-318), including its `@setup` decorator. Runs
`['git', command, *args]` with `stdout=PIPE` and stderr per the `stderr`
parameter (`STDOUT` by default, merging stderr into the captured stdout),
raising `GitError` whose first argument is the captured stdout on non-zero
exit when `check_returncode` is set, else returning the captured stdout
right-stripped. -/
def Git._getoutput (g : Git) (w : World) (command : String) (args : List String)
    (check_returncode : Bool) (stderrCfg : Std3) : M String := fun st =>
  let st1 : ProcState := { cwd := g.path, gitDirEnv := some g.gitdir }
  match mapME (relArgE g w) (command :: args) with
  | .error e => (.error e, st1, [])
  | .ok rargs =>
    let argv := "git" :: rargs
    let out := w.run argv
    let inv : Invocation :=
      { argv := argv, cwd := st1.cwd, gitDirEnv := st1.gitDirEnv,
        stdoutCfg := .pipe, stderrCfg := stderrCfg }
    let res : Except PyErr String :=
      if check_returncode && out.exitCode != 0 then
        .error (.gitError out.stdout)
      else
        .ok (pyRstrip out.stdout)
    (res, { st1 with cwd := st.cwd }, [inv])

/-- `Git.read_tree` (lines 192-194): `git read-tree *opts`, result discarded. -/
def Git.read_tree (g : Git) (w : World) (opts : List String) : M Unit := fun st =>
  match Git._system g w "read-tree" opts true st with
  | (.ok _, st1, inv) => (.ok (), st1, inv)
  | (.error e, st1, inv) => (.error e, st1, inv)

/-- `Git.update_index` (lines 196-198): `git update-index --remove <paths>`. -/
def Git.update_index (g : Git) (w : World) (paths : List String) : M Unit := fun st =>
  match Git._system g w "update-index" ("--remove" :: paths) true st with
  | (.ok _, st1, inv) => (.ok (), st1, inv)
  | (.error e, st1, inv) => (.error e, st1, inv)

/-- `Git.update_index_refresh` (lines 200-202):
`git update-index -q --unmerged --refresh`. -/
def Git.update_index_refresh (g : Git) (w : World) : M Unit := fun st =>
  match Git._system g w "update-index" ["-q", "--unmerged", "--refresh"] true st with
  | (.ok _, st1, inv) => (.ok (), st1, inv)
  | (.error e, st1, inv) => (.error e, st1, inv)

/-- `Git.update_index_all` (lines 204-217). Not decorated with `@setup`: its
direct `subprocess.run(['git', 'update-index', '--refresh'], stdout=PIPE,
stderr=STDOUT)` runs under whatever working directory and `GIT_DIR` the
ambient process state holds. On exit code 0 it returns; otherwise it collects
the lines ending in `needs update`, takes each line's `rsplit(':', 1)[0]`,
and calls `update_index` on them. -/
def Git.update_index_all (g : Git) (w : World) : M Unit := fun st =>
  let argv := ["git", "update-index", "--refresh"]
  let out := w.run argv
  let inv : Invocation :=
    { argv := argv, cwd := st.cwd, gitDirEnv := st.gitDirEnv,
      stdoutCfg := .pipe, stderrCfg := .toStdout }
  if out.exitCode == 0 then
    (.ok (), st, [inv])
  else
    let files := ((pySplit out.stdout "\n").filter
        (fun line => pyEndsWith line "needs update")).map
        (fun line => pyRsplitHead line ":")
    match Git.update_index g w files st with
    | (.ok _, st1, inv1) => (.ok (), st1, inv :: inv1)
    | (.error e, st1, inv1) => (.error e, st1, inv :: inv1)

/-- `Git.raw` (lines 288-298): runs `_system` with `check_returncode=False`
and returns `None` on exit code 0, the exit code itself otherwise. -/
def Git.raw (g : Git) (w : World) (command : String) (args : List String) :
    M (Option Nat) := fun st =>
  match Git._system g w command args false st with
  | (.ok 0, st1, inv) => (.ok none, st1, inv)
  | (.ok ec, st1, inv) => (.ok (some ec), st1, inv)
  | (.error e, st1, inv) => (.error e, st1, inv)

/-- `Git.rev_parse` (lines 328-336): `git rev-parse *args`; returns the output
on success and `None` when `_getoutput` raises `GitError`. -/
def Git.rev_parse (g : Git) (w : World) (args : List String) :
    M (Option String) := fun st =>
  match Git._getoutput g w "rev-parse" args true .toStdout st with
  | (.ok s, st1, inv) => (.ok (some s), st1, inv)
  | (.error (.gitError _), st1, inv) => (.ok none, st1, inv)
  | (.error e, st1, inv) => (.error e, st1, inv)

/-- `Git.status` (lines 474-483): first `update_index_refresh`, then
`git diff-index --ignore-submodules --name-status HEAD *paths`, splitting the
output into lines and each line at its first tab. -/
def Git.status (g : Git) (w : World) (paths : List String) :
    M (List (List String)) := fun st =>
  match Git.update_index_refresh g w st with
  | (.error e, st1, inv1) => (.error e, st1, inv1)
  | (.ok _, st1, inv1) =>
    match Git._getoutput g w "diff-index"
        (["--ignore-submodules", "--name-status", "HEAD"] ++ paths)
        true .toStdout st1 with
    | (.error e, st2, inv2) => (.error e, st2, inv1 ++ inv2)
    | (.ok out, st2, inv2) =>
      if out != "" then
        (.ok ((pySplit out "\n").map (fun line => pySplitOnce line "\t")),
         st2, inv1 ++ inv2)
      else
        (.ok [], st2, inv1 ++ inv2)

/-- The `compared` argument of `Git.list_changed_files`: a string or a tuple
of strings. -/
inductive Compared
  | str (s : String)
  | tup (l : List String)
  deriving Repr, DecidableEq

/-- `Git.list_changed_files` (lines 531-561). Not decorated. Calls
`update_index_refresh` first; then, in the string case, executes
`_compared = [_compared]` whose right-hand side reads the local `_compared`
before any assignment to it, raising `UnboundLocalError`; in the tuple case
dispatches on the length to `git diff-tree` (2), `git diff-index` (1), or a
`GitError` (otherwise). -/
def Git.list_changed_files (g : Git) (w : World) (compared : Compared)
    (paths : List String) : M (List String) := fun st =>
  match Git.update_index_refresh g w st with
  | (.error e, st1, inv1) => (.error e, st1, inv1)
  | (.ok _, st1, inv1) =>
    match compared with
    | .str _ => (.error .unboundLocalError, st1, inv1)
    | .tup l =>
      match l with
      | [a, b] =>
        match Git._getoutput g w "diff-tree"
            (["-r", "--name-only", a, b] ++ paths) true .toStdout st1 with
        | (.error e, st2, inv2) => (.error e, st2, inv1 ++ inv2)
        | (.ok s, st2, inv2) =>
          if s != "" then (.ok (pySplit s "\n"), st2, inv1 ++ inv2)
          else (.ok [], st2, inv1 ++ inv2)
      | [a] =>
        match Git._getoutput g w "diff-index"
            (["--ignore-submodules", "-r", "--name-only", a] ++ paths)
            true .toStdout st1 with
        | (.error e, st2, inv2) => (.error e, st2, inv1 ++ inv2)
        | (.ok s, st2, inv2) =>
          if s != "" then (.ok (pySplit s "\n"), st2, inv1 ++ inv2)
          else (.ok [], st2, inv1 ++ inv2)
      | _ =>
        (.error (.gitError "compared does not contain 1 or 2 elements"),
         st1, inv1)

/-- The `lines` argument of `Git.set_gitignore`: a string or a list. -/
inductive StrOrList
  | str (s : String)
  | list (l : List String)
  deriving Repr, DecidableEq

/-- The observable effect of a file write performed by a wrapper helper. -/
structure FileWrite where
  file : String
  mode : Char
  content : List String
  deriving Repr, DecidableEq

/-- `Git.set_gitignore` (lines 631-642), a static method: splits a string
argument on newlines, opens `<path>/.gitignore` in write or append mode, and
writes each line followed by a newline. It spawns no `git` subprocess. -/
def Git.set_gitignore (path : String) (lines : StrOrList) (append : Bool) :
    FileWrite × List Invocation :=
  let lines_ := match lines with
    | .str s => pySplit s "\n"
    | .list l => l
  let mode := if append then 'a' else 'w'
  ({ file := pyJoin path ".gitignore", mode := mode,
     content := lines_.map (fun line => line ++ "\n") }, [])

/-! ### Concrete fixtures

Small concrete worlds used by counterexamples and witnesses. `wRealpath`
mimics `os.path.realpath` as called by the wrapper after `os.chdir(g.path)`:
the empty path (the dirname of a bare filename) resolves to the repository
directory, everything else is already canonical. -/

def wRealpath (s : String) : String := if s == "" then "/repo" else s

/-- World in which every subprocess exits 0. -/
def wGood : World :=
  { realpath := wRealpath,
    isdir := fun s => s == "/repo" || s == "/repo/.git",
    run := fun _ => { exitCode := 0, stdout := "", stderr := "" } }

/-- World in which every subprocess exits 1 with distinct stdout/stderr. -/
def wFail : World :=
  { realpath := wRealpath,
    isdir := fun s => s == "/repo" || s == "/repo/.git",
    run := fun _ => { exitCode := 1, stdout := "bad out", stderr := "boom" } }

/-- World whose filesystem holds a bare repository at `/r.git`. -/
def wBare : World :=
  { realpath := fun s => s,
    isdir := fun s =>
      s == "/r.git" || s == "/r.git/refs" || s == "/r.git/objects",
    run := fun _ => { exitCode := 0, stdout := "", stderr := "" } }

/-- World resolving bare filenames inside `/other`, all subprocesses exit 0. -/
def wOther : World :=
  { realpath := fun s => if s == "" then "/other" else s,
    isdir := fun s => s == "/other" || s == "/other/.git",
    run := fun _ => { exitCode := 0, stdout := "", stderr := "" } }

/-- A non-bare repository instance at `/repo`. -/
def gRepo : Git := { path := "/repo", gitdir := "/repo/.git", bare := false }

/-- A second, distinct repository instance at `/other`. -/
def gOther : Git := { path := "/other", gitdir := "/other/.git", bare := false }

/-- Initial process state: shell working directory, `GIT_DIR` unset. -/
def st0 : ProcState := { cwd := "/home", gitDirEnv := none }

/-! ### Helper lemmas -/

/-- Every character kept by `takeWhile` satisfies the predicate. -/
theorem takeWhile_all (p : Char → Bool) (l : List Char) :
    (l.takeWhile p).all p = true := by
  induction l with
  | nil => rfl
  | cons c t ih =>
    cases h : p c with
    | true =>
      rw [List.takeWhile_cons, if_pos h]
      simp [h, ih]
    | false => simp [List.takeWhile_cons, h]

/-- After dropping all leading slashes, the list does not start with one. -/
theorem slash_not_prefix_dropWhile (l : List Char) :
    List.isPrefixOf ['/'] (l.dropWhile (fun c => c == '/')) = false := by
  induction l with
  | nil => rfl
  | cons c t ih =>
    cases h : (c == '/') with
    | true =>
      rw [List.dropWhile_cons, if_pos h]
      exact ih
    | false =>
      have hne : ('/' == c) = false := by
        simp only [beq_eq_false_iff_ne] at h ⊢
        exact fun e => h e.symm
      simp [List.dropWhile_cons, h, List.isPrefixOf, hne]

/-! ### Claim theorems -/

/-- C2: for every path argument `p`, `Git.make_relative` enforces the
invariant that `p` must be inside the repository directory: when the resolved
form of `p` equals the repository path or lies strictly under it, the call
returns the suffix of the resolved path after the repository root — a suffix
with no leading slash, with the resolved path decomposing as the repository
path, a (possibly empty) run of slashes, and that suffix; otherwise it raises
`GitError`. -/
theorem make_relative_spec (g : Git) (w : World) (p : String) :
    ((resolvedPath w p == g.path ||
        pyStartsWith (resolvedPath w p) (g.path ++ "/")) = true →
      ∃ (r : String) (sep : List Char),
        Git.make_relative g w p = .ok r ∧
        pyStartsWith r "/" = false ∧
        (resolvedPath w p).data = g.path.data ++ sep ++ r.data ∧
        sep.all (fun c => c == '/') = true) ∧
    ((resolvedPath w p == g.path ||
        pyStartsWith (resolvedPath w p) (g.path ++ "/")) = false →
      Git.make_relative g w p =
        .error (.gitError
          ("path not in the git repository (" ++ resolvedPath w p ++ ")"))) := by
  constructor
  · intro h
    have hpre : ∃ t0, (resolvedPath w p).data = g.path.data ++ t0 := by
      rcases Bool.or_eq_true_iff.mp h with h1 | h2
      · exact ⟨[], by rw [eq_of_beq h1, List.append_nil]⟩
      · rw [pyStartsWith, List.isPrefixOf_iff_prefix] at h2
        obtain ⟨t, ht⟩ := h2
        exact ⟨"/".data ++ t, by rw [← ht, String.data_append, List.append_assoc]⟩
    obtain ⟨t0, ht0⟩ := hpre
    have hd : (resolvedPath w p).data.drop (pyLen g.path) = t0 := by
      rw [ht0, pyLen, List.drop_left]
    refine ⟨pyLstripSlash (pyDropChars (resolvedPath w p) (pyLen g.path)),
      ((resolvedPath w p).data.drop (pyLen g.path)).takeWhile (fun c => c == '/'),
      ?_, ?_, ?_, ?_⟩
    · simp only [Git.make_relative, h, if_pos]
    · show List.isPrefixOf "/".data _ = false
      exact slash_not_prefix_dropWhile _
    · show (resolvedPath w p).data =
        g.path.data ++ _ ++ ((resolvedPath w p).data.drop (pyLen g.path)).dropWhile _
      rw [hd, ht0, List.append_assoc,
        List.takeWhile_append_dropWhile (fun c => c == '/') t0]
    · exact takeWhile_all _ _
  · intro h
    simp only [Git.make_relative, h, Bool.false_eq_true, if_false]

/-- C3: `Git(path)` maintains the invariant that the gitdir must exist:
construction raises `GitError` exactly when the resolved path has no `.git`
subdirectory and is not a bare repository (a path ending in `.git` with
existing `refs` and `objects` subdirectories); under the filesystem fact that
a directory containing an existing `refs` subdirectory exists itself, every
successful construction yields a `gitdir` that is an existing directory. -/
theorem git_constructor_spec (w : World) (p : String)
    (hfs : w.isdir (pyJoin (w.realpath p) "refs") = true →
           w.isdir (w.realpath p) = true) :
    (∀ g, Git.init w p = .ok g → w.isdir g.gitdir = true) ∧
    ((∃ e, Git.init w p = .error e) ↔
      (w.isdir (pyJoin (w.realpath p) ".git") = false ∧
       ¬(pyEndsWith (w.realpath p) ".git" = true ∧
         w.isdir (pyJoin (w.realpath p) "refs") = true ∧
         w.isdir (pyJoin (w.realpath p) "objects") = true))) := by
  by_cases h1 : w.isdir (pyJoin (w.realpath p) ".git") = true
  · constructor
    · intro g hg
      simp only [Git.init, h1, if_true, Except.ok.injEq] at hg
      rw [← hg]
      exact h1
    · simp [Git.init, h1]
  · rw [Bool.not_eq_true] at h1
    by_cases h2 : (pyEndsWith (w.realpath p) ".git" &&
        w.isdir (pyJoin (w.realpath p) "refs") &&
        w.isdir (pyJoin (w.realpath p) "objects")) = true
    · have h2' := h2
      rw [Bool.and_eq_true, Bool.and_eq_true] at h2'
      constructor
      · intro g hg
        simp only [Git.init, h1, Bool.false_eq_true, if_false, h2, if_true,
          Except.ok.injEq] at hg
        rw [← hg]
        exact hfs h2'.1.2
      · simp only [Git.init, h1, Bool.false_eq_true, if_false, h2, if_true]
        constructor
        · rintro ⟨e, he⟩
          exact absurd he (by simp)
        · rintro ⟨-, hno⟩
          exact absurd ⟨h2'.1.1, ⟨h2'.1.2, h2'.2⟩⟩ hno
    · have h2f : (pyEndsWith (w.realpath p) ".git" &&
          w.isdir (pyJoin (w.realpath p) "refs") &&
          w.isdir (pyJoin (w.realpath p) "objects")) = false :=
        Bool.not_eq_true _ ▸ eq_false_of_ne_true h2
      constructor
      · intro g hg
        simp only [Git.init, h1, Bool.false_eq_true, if_false, h2f] at hg
        exact absurd hg (by simp)
      · simp only [Git.init, h1, Bool.false_eq_true, if_false, h2f]
        constructor
        · intro
          refine ⟨by trivial, fun hc => ?_⟩
          rw [hc.1, hc.2.1, hc.2.2] at h2f
          simp at h2f
        · intro
          exact ⟨_, rfl⟩

/-- C3 witness: on a concrete bare repository at `/r.git`, the filesystem
hypothesis holds and the constructed `gitdir` is an existing directory. -/
theorem git_constructor_spec_witness :
    (wBare.isdir (pyJoin (wBare.realpath "/r.git") "refs") = true →
      wBare.isdir (wBare.realpath "/r.git") = true) ∧
    ∀ g, Git.init wBare "/r.git" = .ok g → wBare.isdir g.gitdir = true :=
  ⟨by decide, (git_constructor_spec wBare "/r.git" (by decide)).1⟩

/-- C9: for every path, the module-level `is_git_repository` either returns
`True` (exactly when the resolved path's `.git` entry is a directory) or
raises `NameError` (exactly otherwise, because the bare-repository fallback
branch references the undefined name `self`); it never returns `False`. -/
theorem is_git_repository_never_false (w : World) (p : String) :
    (is_git_repository w p = .ok true ↔
      w.isdir (pyJoin (w.realpath p) ".git") = true) ∧
    is_git_repository w p ≠ .ok false ∧
    (is_git_repository w p = .error .nameError ↔
      w.isdir (pyJoin (w.realpath p) ".git") = false) := by
  by_cases h : w.isdir (pyJoin (w.realpath p) ".git") = true
  · simp [is_git_repository, h]
  · rw [Bool.not_eq_true] at h
    simp [is_git_repository, h]

/-- C9 witness: on the concrete world with a repository at `/repo`,
`is_git_repository` returns `True`. -/
theorem is_git_repository_never_false_witness :
    is_git_repository wGood "/repo" = .ok true :=
  (is_git_repository_never_false wGood "/repo").1.mpr (by decide)

/-- Helper: argument preprocessing fails only with `AttributeError` (the
broken `except self.GitError` clause), never with a `GitError`. -/
theorem mapME_relArgE_error (g : Git) (w : World) :
    ∀ (l : List String) (e : PyErr),
      mapME (relArgE g w) l = .error e → e = .attributeError := by
  intro l
  induction l with
  | nil =>
    intro e h
    exact absurd h (by simp [mapME])
  | cons a rest ih =>
    intro e h
    rw [mapME] at h
    cases ha : relArgE g w a with
    | error e1 =>
      rw [ha] at h
      injection h with h1
      unfold relArgE at ha
      cases hm : Git.make_relative g w a with
      | ok r =>
        rw [hm] at ha
        exact absurd ha (by simp)
      | error e2 =>
        rw [hm] at ha
        injection ha with h2
        rw [← h1, ← h2]
    | ok b =>
      rw [ha] at h
      cases hr : mapME (relArgE g w) rest with
      | error e2 =>
        rw [hr] at h
        injection h with h1
        rw [← h1]
        exact ih e2 hr
      | ok bs =>
        rw [hr] at h
        exact absurd h (by simp)

/-- C1 counterexample: in a world where every `git` subprocess exits 1,
`Git.raw` returns the exit code as a value and `Git.rev_parse` returns `None`
-- neither raises `GitError` -- so not every wrapper method raises on
non-zero exit. -/
theorem raw_nonzero_exit_returns_value :
    (wFail.run ["git", "status"]).exitCode = 1 ∧
    (Git.raw gRepo wFail "status" [] st0).1 = .ok (some 1) ∧
    (Git.rev_parse gRepo wFail ["HEAD"] st0).1 = .ok none := by decide

/-- C1 amended: the two dispatchers `_system` and `_getoutput`, when called
with `check_returncode` set (the default) and with argument preprocessing
succeeding, raise `GitError` whenever the `git` subprocess exits non-zero. -/
theorem dispatchers_raise_on_nonzero_exit (g : Git) (w : World)
    (command : String) (args : List String) (cfg : Std3) (st : ProcState)
    (rargs : List String)
    (hargs : mapME (relArgE g w) (command :: args) = .ok rargs)
    (hexit : (w.run ("git" :: rargs)).exitCode ≠ 0) :
    (Git._system g w command args true st).1 =
      .error (.gitError (w.run ("git" :: rargs)).stderr) ∧
    (Git._getoutput g w command args true cfg st).1 =
      .error (.gitError (w.run ("git" :: rargs)).stdout) := by
  have hb : ((w.run ("git" :: rargs)).exitCode != 0) = true := by
    simpa using hexit
  constructor
  · simp [Git._system, hargs, hb]
  · simp [Git._getoutput, hargs, hb]

/-- C1 witness: on the all-fail world, `_system` raises `GitError` carrying
stderr. -/
theorem dispatchers_raise_on_nonzero_exit_witness :
    (Git._system gRepo wFail "status" [] true st0).1 =
      .error (.gitError (wFail.run ["git", "status"]).stderr) :=
  (dispatchers_raise_on_nonzero_exit gRepo wFail "status" [] .toStdout st0
    ["status"] (by decide) (by decide)).1

/-- C4 counterexample: `GitError` is raised for reasons other than a non-zero
`git` exit: `list_changed_files` raises it for a bad `compared` length while
every subprocess it spawned exited 0, and the constructor raises it without
spawning any subprocess at all. -/
theorem giterror_without_subprocess :
    (Git.list_changed_files gRepo wGood (.tup []) [] st0).1 =
      .error (.gitError "compared does not contain 1 or 2 elements") ∧
    ((Git.list_changed_files gRepo wGood (.tup []) [] st0).2.2.all
      (fun i => (wGood.run i.argv).exitCode == 0)) = true ∧
    Git.init wGood "/nowhere" =
      .error (.gitError "Not a git repository `/nowhere'") := by decide

/-- C4 amended: a `GitError` raised by `_system` for a non-zero exit carries
that subprocess's captured stderr, while one raised by `_getoutput` carries
its captured stdout (into which stderr is merged by default); `GitError` is
also raised for non-subprocess conditions. -/
theorem giterror_message_sources (g : Git) (w : World) (command : String)
    (args : List String) (cfg : Std3) (st : ProcState) (m1 m2 : String) :
    ((Git._system g w command args true st).1 = .error (.gitError m1) →
      ∃ rargs, mapME (relArgE g w) (command :: args) = .ok rargs ∧
        m1 = (w.run ("git" :: rargs)).stderr) ∧
    ((Git._getoutput g w command args true cfg st).1 = .error (.gitError m2) →
      ∃ rargs, mapME (relArgE g w) (command :: args) = .ok rargs ∧
        m2 = (w.run ("git" :: rargs)).stdout) := by
  constructor
  · intro h
    cases hm : mapME (relArgE g w) (command :: args) with
    | error e =>
      rw [Git._system] at h
      simp only [hm] at h
      injection h with h1
      rw [mapME_relArgE_error g w _ e hm] at h1
      exact absurd h1 (by simp)
    | ok rargs =>
      refine ⟨rargs, rfl, ?_⟩
      rw [Git._system] at h
      simp only [hm] at h
      by_cases hx : ((w.run ("git" :: rargs)).exitCode != 0) = true
      · simp only [hx, Bool.true_and, if_true] at h
        injection h with h1
        injection h1 with h2
        exact h2.symm
      · rw [Bool.not_eq_true] at hx
        simp only [hx, Bool.and_false] at h
        exact absurd h (by simp)
  · intro h
    cases hm : mapME (relArgE g w) (command :: args) with
    | error e =>
      rw [Git._getoutput] at h
      simp only [hm] at h
      injection h with h1
      rw [mapME_relArgE_error g w _ e hm] at h1
      exact absurd h1 (by simp)
    | ok rargs =>
      refine ⟨rargs, rfl, ?_⟩
      rw [Git._getoutput] at h
      simp only [hm] at h
      by_cases hx : ((w.run ("git" :: rargs)).exitCode != 0) = true
      · simp only [hx, Bool.true_and, if_true] at h
        injection h with h1
        injection h1 with h2
        exact h2.symm
      · rw [Bool.not_eq_true] at hx
        simp only [hx, Bool.and_false] at h
        exact absurd h (by simp)

/-- C4 witness: on the all-fail world the `_system` branch of the amended
theorem yields the concrete stderr text. -/
theorem giterror_message_sources_witness :
    ∃ rargs, mapME (relArgE gRepo wFail) ("status" :: []) = .ok rargs ∧
      "boom" = (wFail.run ("git" :: rargs)).stderr :=
  (giterror_message_sources gRepo wFail "status" [] .toStdout st0 "boom"
    "bad out").1 (by decide)

/-- C5 counterexample: wrapper calls are not mutually independent. After a
decorated call on a different repository, `GIT_DIR` persists, and
`update_index_all` (which bypasses the `setup` decorator) spawns its `git`
subprocess under that leftover `GIT_DIR`, so the very same call behaves
differently depending on which wrapper calls preceded it. -/
theorem update_index_all_depends_on_history :
    (Git.update_index gOther wOther [] st0).1 = .ok () ∧
    (Git.update_index_all gRepo wOther
        ((Git.update_index gOther wOther [] st0).2.1)).2.2.map
      Invocation.gitDirEnv = [some "/other/.git"] ∧
    (Git.update_index_all gRepo wOther st0).2.2.map
      Invocation.gitDirEnv = [none] := by decide

/-- C5 amended: calls are not served from any cache and do not mutate the
instance -- the decorated dispatchers' results and spawned subprocesses are
computed fresh from the oracle and are independent of the ambient process
state left by earlier calls; the dependence shown in the counterexample is
confined to methods that bypass the decorator. -/
theorem decorated_calls_state_independent (g : Git) (w : World)
    (command : String) (args : List String) (chk : Bool) (cfg : Std3)
    (st st1 : ProcState) :
    (Git._system g w command args chk st).1 =
      (Git._system g w command args chk st1).1 ∧
    (Git._system g w command args chk st).2.2 =
      (Git._system g w command args chk st1).2.2 ∧
    (Git._getoutput g w command args chk cfg st).1 =
      (Git._getoutput g w command args chk cfg st1).1 ∧
    (Git._getoutput g w command args chk cfg st).2.2 =
      (Git._getoutput g w command args chk cfg st1).2.2 := by
  cases hm : mapME (relArgE g w) (command :: args) <;>
    simp [Git._system, Git._getoutput, hm]

/-- C6 counterexample: `Git.status` spawns two `git` subprocesses in one call
and the static `Git.set_gitignore` spawns none, so not every method performs
exactly one invocation. -/
theorem status_two_invocations :
    (Git.status gRepo wGood [] st0).2.2.length = 2 ∧
    (Git.set_gitignore "/repo" (.list ["build"]) false).2.length = 0 := by
  decide

/-- C6 amended: the dispatchers `_system` and `_getoutput` each perform
exactly one `git` invocation per call whenever argument preprocessing
succeeds; composite methods such as `status` multiply this and file-writing
statics perform none. -/
theorem dispatchers_single_invocation (g : Git) (w : World) (command : String)
    (args : List String) (chk : Bool) (cfg : Std3) (st : ProcState)
    (rargs : List String)
    (hargs : mapME (relArgE g w) (command :: args) = .ok rargs) :
    (Git._system g w command args chk st).2.2.length = 1 ∧
    (Git._getoutput g w command args chk cfg st).2.2.length = 1 := by
  simp [Git._system, Git._getoutput, hargs]

/-- C6 witness: a concrete `_system` call spawning exactly one subprocess. -/
theorem dispatchers_single_invocation_witness :
    (Git._system gRepo wGood "status" [] true st0).2.2.length = 1 :=
  (dispatchers_single_invocation gRepo wGood "status" [] true .toStdout st0
    ["status"] (by decide)).1

/-- C7 counterexample: `read_tree` goes through `_system`, whose
`subprocess.run` pipes only stderr; the subprocess's stdout is inherited by
the calling process, not captured. -/
theorem system_stdout_not_captured :
    (Git.read_tree gRepo wGood [] st0).2.2.map Invocation.stdoutCfg =
      [Std3.inherit] ∧
    (Git.read_tree gRepo wGood [] st0).2.2.map Invocation.stderrCfg =
      [Std3.pipe] := by decide

/-- C7 amended: `_getoutput` captures stdout (piped) with stderr merged into
it or piped per its parameter; `_system` captures only stderr, letting the
subprocess's stdout pass through to the calling process. -/
theorem stream_capture_configuration (g : Git) (w : World) (command : String)
    (args : List String) (chk : Bool) (cfg : Std3) (st : ProcState) :
    ((Git._system g w command args chk st).2.2.all
      (fun i => i.stdoutCfg == Std3.inherit && i.stderrCfg == Std3.pipe)) =
      true ∧
    ((Git._getoutput g w command args chk cfg st).2.2.all
      (fun i => i.stdoutCfg == Std3.pipe && i.stderrCfg == cfg)) = true := by
  cases hm : mapME (relArgE g w) (command :: args) <;>
    simp [Git._system, Git._getoutput, hm]

/-- C8 counterexample: when argument preprocessing itself raises (an
out-of-repository argument hitting the broken `except self.GitError` clause),
the `chdir` back to the original directory is skipped -- it sits before the
`try`/`finally` -- so the caller observes a changed working directory after
the raising call. -/
theorem cwd_not_restored_on_arg_failure :
    (Git._system gRepo wGood "/outside/x" [] true st0).1 =
      .error .attributeError ∧
    (Git._system gRepo wGood "/outside/x" [] true st0).2.1.cwd = "/repo" ∧
    st0.cwd = "/home" := by decide

/-- C8 amended: for decorated methods whose argument preprocessing succeeds,
the working directory after the call equals the one before it -- both when
the method returns normally and when it raises, since the restoring `chdir`
runs in a `finally` -- while `GIT_DIR` is not restored and persists as the
instance's gitdir. -/
theorem cwd_restored_gitdir_persists (g : Git) (w : World) (command : String)
    (args : List String) (chk : Bool) (cfg : Std3) (st : ProcState)
    (rargs : List String)
    (hargs : mapME (relArgE g w) (command :: args) = .ok rargs) :
    (Git._system g w command args chk st).2.1 =
      { cwd := st.cwd, gitDirEnv := some g.gitdir } ∧
    (Git._getoutput g w command args chk cfg st).2.1 =
      { cwd := st.cwd, gitDirEnv := some g.gitdir } := by
  simp [Git._system, Git._getoutput, hargs]

/-- C8 witness: a concrete decorated call restores the working directory and
leaves `GIT_DIR` set. -/
theorem cwd_restored_gitdir_persists_witness :
    (Git._system gRepo wGood "status" [] true st0).2.1 =
      { cwd := st0.cwd, gitDirEnv := some gRepo.gitdir } :=
  (cwd_restored_gitdir_persists gRepo wGood "status" [] true .toStdout st0
    ["status"] (by decide)).1

/-- C10: for every string value of `compared`, once the initial
`update_index_refresh` returns normally, `list_changed_files` raises
`UnboundLocalError` -- the string branch reads the local `_compared` before
assigning it -- and spawns no further subprocess, in particular never
invoking `git diff-index`. -/
theorem list_changed_files_string_unbound_local (g : Git) (w : World)
    (s : String) (paths : List String) (st : ProcState)
    (hok : (Git.update_index_refresh g w st).1 = .ok ()) :
    (Git.list_changed_files g w (.str s) paths st).1 =
      .error .unboundLocalError ∧
    (Git.list_changed_files g w (.str s) paths st).2.2 =
      (Git.update_index_refresh g w st).2.2 := by
  cases hr : Git.update_index_refresh g w st with
  | mk res rest =>
    cases rest with
    | mk st1 inv1 =>
      rw [hr] at hok
      simp only at hok
      cases res with
      | error e => exact absurd hok (by simp)
      | ok u =>
        constructor <;> simp [Git.list_changed_files, hr]

/-- C10 witness: the concrete call raises `UnboundLocalError`. -/
theorem list_changed_files_string_unbound_local_witness :
    (Git.list_changed_files gRepo wGood (.str "HEAD") [] st0).1 =
      .error .unboundLocalError :=
  (list_changed_files_string_unbound_local gRepo wGood "HEAD" [] st0
    (by decide)).1

/-- C2 witness: a concrete in-repository path is returned as its suffix after
the repository root, with no leading slash. -/
theorem make_relative_spec_witness :
    ∃ (r : String) (sep : List Char),
      Git.make_relative gRepo wGood "/repo/a/b" = .ok r ∧
      pyStartsWith r "/" = false ∧
      (resolvedPath wGood "/repo/a/b").data =
        gRepo.path.data ++ sep ++ r.data ∧
      sep.all (fun c => c == '/') = true :=
  (make_relative_spec gRepo wGood "/repo/a/b").1 (by decide)
